import Mathlib

/-!
Verification development for the certificate backend's certificate
rendering core (`src/services/certificateGenerator.js`) and the
certificate-request intake handler (`routes` file, `router.post('/request')`).

The JavaScript code is shallowly embedded:

* JS `Date` values are modelled by their epoch timeline in minutes; the
  host environment's local time zone is an explicit parameter
  `tz : Int` (the UTC offset in minutes, as in `UTC+offset`).
  `new Date("YYYY-MM-DD")` parses an ISO calendar date at UTC midnight,
  while `getDate`/`getMonth`/`getFullYear`/`setMonth` operate on local
  time, so the embedding converts between the two explicitly.
* Calendar/epoch conversions use the standard civil-calendar algorithms
  (proleptic Gregorian), matching ECMAScript's `MakeDay`/`YearFromTime`.
* Fallible steps (template load, font embedding, QR encoding, PNG
  embedding, serialization, database calls) are driven by an explicit
  environment record of success flags; thrown JS errors become
  `Except.error` carrying the thrown message.
* PDF bytes are modelled structurally: the serialized document is the
  page count, the list of draw operations performed on the first page,
  and opaque encoder metadata.
-/

namespace CertBackend

/-- Number of days from the civil epoch 1970-01-01 to the given proleptic
Gregorian date (Hinnant's `days_from_civil`, floor division throughout,
matching ECMAScript `MakeDay`). -/
def daysFromCivil (y m d : Int) : Int :=
  let yy : Int := if m ≤ 2 then y - 1 else y
  let mm : Int := if m ≤ 2 then m + 12 else m
  365 * yy + yy / 4 - yy / 100 + yy / 400 + (153 * (mm - 3) + 2) / 5 + d - 1 - 719468

/-- Inverse of `daysFromCivil`: the proleptic Gregorian date of an epoch
day count (Hinnant's `civil_from_days`). -/
def civilFromDays (z0 : Int) : Int × Int × Int :=
  let z := z0 + 719468
  let era := z / 146097
  let doe := z % 146097
  let yoe := (doe - doe / 1460 + doe / 36524 - doe / 146096) / 365
  let doy := doe - (365 * yoe + yoe / 4 - yoe / 100)
  let mp := (5 * doy + 2) / 153
  let d := doy - (153 * mp + 2) / 5 + 1
  let m := if mp < 10 then mp + 3 else mp - 9
  let y := yoe + era * 400 + (if m ≤ 2 then 1 else 0)
  (y, m, d)

/-- Leap-year test of the Gregorian calendar. -/
def isLeapYear (y : Int) : Bool :=
  (y % 4 = 0 && y % 100 ≠ 0) || y % 400 = 0

/-- Days in a month of the Gregorian calendar (month given 1-based). -/
def daysInMonth (y m : Int) : Int :=
  if m = 2 then (if isLeapYear y then 29 else 28)
  else if m = 4 ∨ m = 6 ∨ m = 9 ∨ m = 11 then 30
  else 31

/-- Two-digit decimal field of a date string. -/
def twoDigits? (c1 c2 : Char) : Option Int :=
  if c1.isDigit && c2.isDigit then
    some ((c1.toNat - 48) * 10 + (c2.toNat - 48) : Int)
  else none

/-- Parse an ISO calendar-date string `YYYY-MM-DD` exactly as ECMAScript's
date-only format: four digits, dash, two digits, dash, two digits, with the
month in 1..12 and the day valid for that month; anything else yields
`none`, the embedding of JavaScript's `Invalid Date`. -/
def parseYMD (s : String) : Option (Int × Int × Int) :=
  match s.toList with
  | [y1, y2, y3, y4, s1, m1, m2, s2, d1, d2] =>
    if y1.isDigit && y2.isDigit && y3.isDigit && y4.isDigit &&
       s1 = '-' && s2 = '-' then
      match twoDigits? m1 m2, twoDigits? d1 d2 with
      | some m, some d =>
        let y : Int := (y1.toNat - 48) * 1000 + (y2.toNat - 48) * 100 +
                       (y3.toNat - 48) * 10 + (y4.toNat - 48)
        if 1 ≤ m ∧ m ≤ 12 ∧ 1 ≤ d ∧ d ≤ daysInMonth y m then
          some (y, m, d)
        else none
      | _, _ => none
    else none
  | _ => none

/-- The local calendar date that JavaScript's `getFullYear`/`getMonth`/
`getDate` report for a `Date` parsed from the given string, in an
environment whose UTC offset is `tz` minutes: the string parses to UTC
midnight, which is then shifted by the local offset. `none` embeds
`Invalid Date` (every getter returns `NaN`). -/
def jsLocalYMD (tz : Int) (s : String) : Option (Int × Int × Int) :=
  (parseYMD s).map fun ymd =>
    civilFromDays ((daysFromCivil ymd.1 ymd.2.1 ymd.2.2 * 1440 + tz) / 1440)

/-- The month-name table of `formatDate`. -/
def months : List String :=
  ["January", "February", "March", "April", "May", "June",
   "July", "August", "September", "October", "November", "December"]

/-- Embedding of `CertificateGenerator.formatDate` (certificateGenerator.js
lines 19-31). The JS code builds `day month year` from the local-time
getters of `new Date(dateString)`; for an unparseable string the getters
return `NaN`, the month lookup `months[NaN]` is `undefined`, and the
template literal stringifies them, producing `"NaN undefined NaN"`. -/
def formatDate (tz : Int) (dateString : String) : String :=
  match jsLocalYMD tz dateString with
  | some (y, m, d) =>
    toString d ++ " " ++ ((months.get? (m - 1).toNat).getD "undefined") ++
      " " ++ toString y
  | none => "NaN undefined NaN"

/-- A student row as fetched from the `students` table. JavaScript's
required-field check is a falsiness test, so an absent/null field and an
empty string behave identically; both are embedded as `""`. -/
structure StudentRecord where
  student_id : String
  preferred_name : String
  course_name : String
  company_name : String
  internship_start_date : String
  internship_end_date : String
  certificate_id : String
deriving DecidableEq

/-- The PNG buffer produced by `QRCode.toBuffer`: the encoded payload
string together with the options passed at the call site (pixel width,
quiet-zone margin in modules, dark and light colors). The QR library is
external; its encoding is modelled as carrying the payload, and
`decodeQR` below is its inverse. -/
structure QRPng where
  payload : String
  widthOpt : Nat
  marginOpt : Nat
  dark : String
  light : String
deriving DecidableEq

/-- Decoding a QR PNG recovers the encoded payload (the library round
trip, taken as the library's contract). -/
def decodeQR (q : QRPng) : String :=
  q.payload

/-- A drawing operation performed on the template's first page:
`drawText` with its content, position, font size and boldness, or
`drawImage` with the embedded PNG and its rectangle. Coordinates are
rationals (JS numbers; `y` measures from the page bottom as in PDF). -/
inductive DrawOp where
  | text (content : String) (x y : ℚ) (size : Nat) (bold : Bool)
  | image (png : QRPng) (x y w h : ℚ)
deriving DecidableEq

/-- The template PDF: its first page's dimensions and its page count. -/
structure Template where
  width : ℚ
  height : ℚ
  pages : Nat
deriving DecidableEq

/-- The serialized output of `pdfDoc.save()`: page count, the draw
operations applied to the first page, the encoder's byte-level metadata
(timestamps etc.) and the resulting byte length, the last two supplied
by the serialization environment. -/
structure PDFBytes where
  pageCount : Nat
  ops : List DrawOp
  meta : String
  len : Nat
deriving DecidableEq

/-- The environment a render runs in: the host time zone (UTC offset in
minutes), the template-load outcome (`none` embeds a failed
`fs.readFile`/`PDFDocument.load`), success flags for font embedding, QR
encoding, PNG embedding and serialization, and the metadata/length the
serializer produces on success. -/
structure RenderEnv where
  tz : Int
  template : Option Template
  fontOk : Bool
  qrOk : Bool
  embedPngOk : Bool
  saveOk : Bool
  saveMeta : String
  saveLen : Nat

/-- Embedding of `CertificateGenerator.generateQRCode` (lines 36-52):
encode the certificate id with width 150, margin 1, black on white; a
library failure is caught and rethrown as a fixed message. -/
def generateQRCode (qrOk : Bool) (certificateId : String) : Except String QRPng :=
  if qrOk then
    Except.ok ⟨certificateId, 150, 1, "#000000", "#FFFFFF"⟩
  else
    Except.error "Failed to generate QR code"

/-- The completion line of the certificate text (line 95). -/
def completionText (s : StudentRecord) : String :=
  "has successfully completed a " ++ s.course_name ++ " Internship at " ++
    s.company_name ++ ","

/-- The date-range line of the certificate text (line 105). -/
def dateText (tz : Int) (s : StudentRecord) : String :=
  "held from " ++ formatDate tz s.internship_start_date ++ " to " ++
    formatDate tz s.internship_end_date ++ "."

/-- Horizontal start of a drawn text line, as computed at lines 87, 97
and 107: page midline minus character count times the per-size constant
(12 for the size-24 name, 4 for the size-14 lines). -/
def textStartX (width : ℚ) (content : String) (perChar : ℚ) : ℚ :=
  width / 2 - content.length * perChar

/-- The heuristic text width the layout works with: character count
times the per-size constant. -/
def estimatedWidth (content : String) (perChar : ℚ) : ℚ :=
  content.length * perChar

/-- The visual center of a drawn line under the width heuristic: start
position plus half the estimated width. -/
def visualCenter (width : ℚ) (content : String) (perChar : ℚ) : ℚ :=
  textStartX width content perChar + estimatedWidth content perChar / 2

/-- Embedding of `CertificateGenerator.generateCertificate` (lines
57-140): load the template, take its first page, embed the fonts, format
the dates, draw the three text lines, generate and embed the QR code,
draw it in the top-right corner, and serialize. Any failing step throws;
the catch block rethrows with the `Certificate generation failed: `
message, so the function returns either the complete serialized document
or an error and nothing else. -/
def generateCertificate (env : RenderEnv) (s : StudentRecord) : Except String PDFBytes :=
  match env.template with
  | none => Except.error "Certificate generation failed: template load error"
  | some t =>
    if t.pages = 0 then
      Except.error "Certificate generation failed: no first page"
    else if !env.fontOk then
      Except.error "Certificate generation failed: font embedding error"
    else
      let nameOp := DrawOp.text s.preferred_name
        (textStartX t.width s.preferred_name 12) (t.height / 2 + 50) 24 true
      let compOp := DrawOp.text (completionText s)
        (textStartX t.width (completionText s) 4) (t.height / 2 + 10) 14 false
      let dateOp := DrawOp.text (dateText env.tz s)
        (textStartX t.width (dateText env.tz s) 4) (t.height / 2 - 20) 14 false
      match generateQRCode env.qrOk s.certificate_id with
      | Except.error e => Except.error ("Certificate generation failed: " ++ e)
      | Except.ok qrPng =>
        if !env.embedPngOk then
          Except.error "Certificate generation failed: PNG embedding error"
        else if !env.saveOk then
          Except.error "Certificate generation failed: serialization error"
        else
          Except.ok ⟨t.pages,
            [nameOp, compOp, dateOp,
             DrawOp.image qrPng (t.width - 80 - 20) (t.height - 80 - 20) 80 80],
            env.saveMeta, env.saveLen⟩

/-- The result object returned by `generateAndSaveCertificate` on
success (lines 199-205). -/
structure SaveResult where
  success : Bool
  message : String
  student : String
  certificateId : String
  size : Nat
deriving DecidableEq

/-- One acknowledged write against the `students` table: the row is
selected by `eq('student_id', key)` and receives the rendered bytes in
its `certificate` column. -/
structure DbWrite where
  key : String
  value : PDFBytes
deriving DecidableEq

/-- Observable outcome of `generateAndSaveCertificate`: the value
returned or error thrown, the writes that were performed and
acknowledged by the database, and whether the PDF-generation step
(`generateCertificate`) was ever invoked. -/
structure SaveOutcome where
  result : Except String SaveResult
  writes : List DbWrite
  rendered : Bool

/-- The ordered required-field list of line 168. -/
def requiredFields : List String :=
  ["preferred_name", "course_name", "internship_start_date",
   "internship_end_date", "company_name", "certificate_id"]

/-- Field access `student[field]` for the names in `requiredFields`. -/
def fieldValue (s : StudentRecord) (f : String) : String :=
  if f = "preferred_name" then s.preferred_name
  else if f = "course_name" then s.course_name
  else if f = "internship_start_date" then s.internship_start_date
  else if f = "internship_end_date" then s.internship_end_date
  else if f = "company_name" then s.company_name
  else if f = "certificate_id" then s.certificate_id
  else ""

/-- The falsy required fields of a fetched student (line 169): in JS an
absent, null or empty-string field is falsy, all embedded as `""`. -/
def missingFields (s : StudentRecord) : List String :=
  requiredFields.filter fun f => fieldValue s f = ""

/-- The `students` row matching `eq('student_id', sid).single()`;
`student_id` is the table's key, so at most one row matches. -/
def findStudent (db : List StudentRecord) (sid : String) : Option StudentRecord :=
  db.find? fun r => r.student_id = sid

/-- Embedding of `CertificateGenerator.generateAndSaveCertificate`
(lines 145-211): fetch the student row, validate the required fields,
render the certificate, and write the bytes back to the row selected by
the same `studentId`; every failure throws, performing no write beyond
those already acknowledged. `updateOk` is the database's answer to the
update call. -/
def generateAndSaveCertificate (env : RenderEnv) (updateOk : Bool)
    (db : List StudentRecord) (studentId : String) : SaveOutcome :=
  match findStudent db studentId with
  | none => ⟨Except.error "Failed to fetch student: no rows returned", [], false⟩
  | some student =>
    if missingFields student ≠ [] then
      ⟨Except.error ("Missing required fields: " ++
        String.intercalate ", " (missingFields student)), [], false⟩
    else
      match generateCertificate env student with
      | Except.error e => ⟨Except.error e, [], true⟩
      | Except.ok certificateBytes =>
        if !updateOk then
          ⟨Except.error "Failed to save certificate: update error", [], true⟩
        else
          ⟨Except.ok ⟨true, "Certificate generated and saved successfully",
              student.preferred_name, student.certificate_id,
              certificateBytes.len⟩,
            [⟨studentId, certificateBytes⟩], true⟩

/-- The QR images embedded in a serialized document. -/
def qrImages (b : PDFBytes) : List QRPng :=
  b.ops.filterMap fun op =>
    match op with
    | DrawOp.image q _ _ _ _ => some q
    | _ => none

/-- Position and size of every image drawn in a serialized document. -/
def imageRects (b : PDFBytes) : List (ℚ × ℚ × ℚ × ℚ) :=
  b.ops.filterMap fun op =>
    match op with
    | DrawOp.image _ x y w h => some (x, y, w, h)
    | _ => none

/-- Zero-padded two-digit decimal field. -/
def pad2 (x : Int) : String :=
  if x < 10 then "0" ++ toString x else toString x

/-- Zero-padded four-digit year field (years 0-9999, which covers every
date the ISO `YYYY-MM-DD` parser can produce). -/
def pad4 (x : Int) : String :=
  if x < 10 then "000" ++ toString x
  else if x < 100 then "00" ++ toString x
  else if x < 1000 then "0" ++ toString x
  else toString x

/-- The `YYYY-MM-DD` rendering used by `toISOString().split('T')[0]`. -/
def isoDateString (y m d : Int) : String :=
  pad4 y ++ "-" ++ pad2 m ++ "-" ++ pad2 d

/-- Embedding of the end-date computation of the request handler:
`new Date(start)` (UTC midnight), `setMonth(getMonth() + n)` on local
time with month and day overflow rolling forward as in ECMAScript
`MakeDay`, then `toISOString().split('T')[0]` back in UTC. `none` embeds
an `Invalid Date`, whose `toISOString` throws a `RangeError`. -/
def jsAddMonthsISO (tz : Int) (start : String) (n : Nat) : Option String :=
  (parseYMD start).map fun ymd =>
    let localMin := daysFromCivil ymd.1 ymd.2.1 ymd.2.2 * 1440 + tz
    let c := civilFromDays (localMin / 1440)
    let mi := c.2.1 - 1 + n
    let newLocalMin :=
      (daysFromCivil (c.1 + mi / 12) (mi % 12 + 1) 1 + (c.2.2 - 1)) * 1440 +
        localMin % 1440
    let u := civilFromDays ((newLocalMin - tz) / 1440)
    isoDateString u.1 u.2.1 u.2.2

/-- The body of a certificate-request submission (`req.body`).
`internship_duration` is embedded after `parseInt` as a `Nat`; the JS
falsiness check rejects `0` just as it rejects an absent field. -/
structure CertRequest where
  phone_number : String
  internship_start_date : String
  internship_duration : Nat
  course_name : String
  company_name : String
  preferred_name : String

/-- The columns the handler selects from an existing (non-deleted)
student row with the request's phone number; null columns are `""`. -/
structure ExistingStudent where
  certificate_id : String
  internship_start_date : String
  preferred_name : String

/-- The payload of the handler's `students` update. -/
structure StudentUpdate where
  internship_start_date : String
  internship_end_date : String
  internship_duration : Nat
  course_id : Nat
  company_id : Nat
  preferred_name : String
  certificate_id : String
deriving DecidableEq

/-- Observable outcome of the request handler: HTTP status, the `error`
or `message` string of the JSON body, and the acknowledged writes. -/
structure RequestOutcome where
  status : Nat
  body : String
  writes : List StudentUpdate

/-- The handler's duplicate-submission test:
`existingStudent && (existingStudent.internship_start_date ||
existingStudent.preferred_name)`. -/
def alreadySubmitted (existing : Option ExistingStudent) : Bool :=
  match existing with
  | some e => e.internship_start_date ≠ "" || e.preferred_name ≠ ""
  | none => false

/-- Embedding of `router.post('/request')` (the certificate-request
route): validate the six request fields, resolve the course and company
names to ids, compute the end date by adding the duration in months,
reject a second submission, choose `existing?.certificate_id ||
generateCertificateId()` as the certificate id, and update the student
row. The database's answers are parameters: `courseLookup` and
`companyLookup` are the resolved ids (`none` embeds a failed
`.single()`), `existing` the prior student row, `freshId` the output of
the random `generateCertificateId`, `updateError` and `updateFound` the
update call's outcome. An `Invalid Date` end date makes `toISOString`
throw inside the update payload, landing in the catch-all 500. -/
def certificateRequestHandler (tz : Int) (req : CertRequest)
    (courseLookup companyLookup : Option Nat) (existing : Option ExistingStudent)
    (freshId : String) (updateError updateFound : Bool) : RequestOutcome :=
  if req.phone_number = "" ∨ req.internship_start_date = "" ∨
     req.internship_duration = 0 ∨ req.course_name = "" ∨
     req.company_name = "" ∨ req.preferred_name = "" then
    ⟨400, "Missing required fields", []⟩
  else
    match courseLookup with
    | none => ⟨400, "Invalid course selection", []⟩
    | some courseId =>
      match companyLookup with
      | none => ⟨400, "Invalid company selection", []⟩
      | some companyId =>
        if alreadySubmitted existing then
          ⟨400, "Certificate request already submitted", []⟩
        else
          match jsAddMonthsISO tz req.internship_start_date
              req.internship_duration with
          | none => ⟨500, "Failed to process certificate request", []⟩
          | some endDate =>
            let certificateId :=
              match existing with
              | some e => if e.certificate_id ≠ "" then e.certificate_id else freshId
              | none => freshId
            let upd : StudentUpdate :=
              ⟨req.internship_start_date, endDate, req.internship_duration,
               courseId, companyId, req.preferred_name.trim, certificateId⟩
            if updateError then
              ⟨500, "Failed to submit certificate request", []⟩
            else if !updateFound then
              ⟨404, "Student not found", []⟩
            else
              ⟨200, "Certificate request submitted successfully", [upd]⟩

/-- The four draw operations a successful render performs, in order. -/
def expectedOps (tz : Int) (t : Template) (s : StudentRecord) : List DrawOp :=
  [DrawOp.text s.preferred_name (textStartX t.width s.preferred_name 12)
     (t.height / 2 + 50) 24 true,
   DrawOp.text (completionText s) (textStartX t.width (completionText s) 4)
     (t.height / 2 + 10) 14 false,
   DrawOp.text (dateText tz s) (textStartX t.width (dateText tz s) 4)
     (t.height / 2 - 20) 14 false,
   DrawOp.image ⟨s.certificate_id, 150, 1, "#000000", "#FFFFFF"⟩
     (t.width - 80 - 20) (t.height - 80 - 20) 80 80]

/-- Characterization of a successful render: every step succeeded and
the output is exactly the template's page count, the four draw
operations, and the serializer's metadata and length. -/
theorem generateCertificate_ok_elim (env : RenderEnv) (s : StudentRecord)
    (b : PDFBytes) (h : generateCertificate env s = Except.ok b) :
    ∃ t, env.template = some t ∧ t.pages ≠ 0 ∧ env.fontOk = true ∧
      env.qrOk = true ∧ env.embedPngOk = true ∧ env.saveOk = true ∧
      b = ⟨t.pages, expectedOps env.tz t s, env.saveMeta, env.saveLen⟩ := by
  unfold generateCertificate at h
  split at h
  · exact absurd h (by simp)
  · rename_i t ht
    refine ⟨t, ht, ?_⟩
    split at h
    · exact absurd h (by simp)
    · split at h
      · exact absurd h (by simp)
      · split at h
        · exact absurd h (by simp)
        · rename_i hpages hfont qr hqr
          split at h
          · exact absurd h (by simp)
          · split at h
            · exact absurd h (by simp)
            · unfold generateQRCode at hqr
              split at hqr
              · simp only [Except.ok.injEq] at h hqr
                simp_all [expectedOps]
              · exact absurd hqr (by simp)

/-- Concrete fixtures used by witnesses: a fully populated student row,
a single-page 600 x 400 template, and an all-steps-succeed environment
in a UTC host. -/
def demoStudent : StudentRecord :=
  ⟨"42", "John Doe", "Full Stack", "AddWise Tech Innovations",
   "2025-01-15", "2025-04-15", "CERT1234"⟩

/-- Single-page demo template. -/
def demoTemplate : Template := ⟨600, 400, 1⟩

/-- All-steps-succeed render environment at UTC. -/
def demoEnv : RenderEnv := ⟨0, some demoTemplate, true, true, true, true, "meta-a", 1000⟩

/-- Same as `demoEnv` except for the serializer's byte-level metadata
and length, modelling a second run with different timestamps. -/
def demoEnv2 : RenderEnv := ⟨0, some demoTemplate, true, true, true, true, "meta-b", 1003⟩

/-- C3: for every render that succeeds, the payload encoded into the
(unique) QR image of the output is exactly the request's
`certificate_id`, so decoding the QR region yields it back unchanged. -/
theorem qr_roundtrip (env : RenderEnv) (s : StudentRecord) (b : PDFBytes)
    (h : generateCertificate env s = Except.ok b) :
    (qrImages b).map decodeQR = [s.certificate_id] := by
  obtain ⟨t, -, -, -, -, -, -, hb⟩ := generateCertificate_ok_elim env s b h
  subst hb
  simp [qrImages, expectedOps, decodeQR]

/-- Witness for C3 at the demo fixtures. -/
theorem qr_roundtrip_witness :
    generateCertificate demoEnv demoStudent =
      Except.ok ⟨1, expectedOps 0 demoTemplate demoStudent, "meta-a", 1000⟩ ∧
    (qrImages ⟨1, expectedOps 0 demoTemplate demoStudent, "meta-a", 1000⟩).map decodeQR =
      ["CERT1234"] :=
  ⟨by rfl, qr_roundtrip demoEnv demoStudent _ (by rfl)⟩

/-- C6: the render is all-or-nothing. If the template fails to load or
any of font embedding, QR encoding, PNG embedding or serialization
fails, the render returns an error and no bytes; and whenever it does
return bytes, they are the complete document carrying all four draw
operations, ending with the serialization. -/
theorem render_all_or_nothing (env : RenderEnv) (s : StudentRecord) :
    ((env.template = none ∨ env.fontOk = false ∨ env.qrOk = false ∨
      env.embedPngOk = false ∨ env.saveOk = false) →
      ∃ e, generateCertificate env s = Except.error e) ∧
    (∀ b, generateCertificate env s = Except.ok b →
      ∃ t, env.template = some t ∧ b.ops = expectedOps env.tz t s ∧
        b.ops.length = 4) := by
  constructor
  · intro hfail
    cases hr : generateCertificate env s with
    | error e => exact ⟨e, rfl⟩
    | ok b =>
      obtain ⟨t, ht, -, hfont, hqr, hpng, hsave, -⟩ :=
        generateCertificate_ok_elim env s b hr
      rcases hfail with h | h | h | h | h <;> simp_all
  · intro b hb
    obtain ⟨t, ht, -, -, -, -, -, rfl⟩ := generateCertificate_ok_elim env s b hb
    exact ⟨t, ht, rfl, rfl⟩

/-- Witness for C6: a run whose serialization step fails yields an
error, and a fully successful run yields the four operations. -/
theorem render_all_or_nothing_witness :
    (∃ e, generateCertificate ⟨0, some demoTemplate, true, true, true, false,
        "meta-a", 1000⟩ demoStudent = Except.error e) ∧
    ((generateCertificate demoEnv demoStudent).toOption.map PDFBytes.ops =
      some (expectedOps 0 demoTemplate demoStudent)) :=
  ⟨(render_all_or_nothing ⟨0, some demoTemplate, true, true, true, false,
      "meta-a", 1000⟩ demoStudent).1 (by simp), by rfl⟩

/-- C7: in every successful render the QR image is the single embedded
image, drawn as a fixed 80 x 80 square whose bottom-left corner sits at
(width - 80 - 20, height - 80 - 20) — a fixed 20-unit margin from the
right and top page edges — and the PNG itself is black-on-white with
quiet-zone margin 1; the rectangle is a function of the page dimensions
and fixed constants alone, independent of the drawn text. -/
theorem qr_placement_fixed (env : RenderEnv) (s : StudentRecord)
    (t : Template) (b : PDFBytes) (ht : env.template = some t)
    (h : generateCertificate env s = Except.ok b) :
    qrImages b = [⟨s.certificate_id, 150, 1, "#000000", "#FFFFFF"⟩] ∧
    imageRects b = [(t.width - 80 - 20, t.height - 80 - 20, 80, 80)] := by
  obtain ⟨t2, ht2, -, -, -, -, -, rfl⟩ := generateCertificate_ok_elim env s b h
  rw [ht] at ht2
  cases ht2
  simp [qrImages, imageRects, expectedOps]

/-- Witness for C7 at the demo fixtures. -/
theorem qr_placement_fixed_witness :
    demoEnv.template = some demoTemplate ∧
    generateCertificate demoEnv demoStudent =
      Except.ok ⟨1, expectedOps 0 demoTemplate demoStudent, "meta-a", 1000⟩ ∧
    qrImages ⟨1, expectedOps 0 demoTemplate demoStudent, "meta-a", 1000⟩ =
      [⟨"CERT1234", 150, 1, "#000000", "#FFFFFF"⟩] ∧
    imageRects ⟨1, expectedOps 0 demoTemplate demoStudent, "meta-a", 1000⟩ =
      [(500, 300, 80, 80)] := by
  refine ⟨rfl, rfl, ?_⟩
  have h := qr_placement_fixed demoEnv demoStudent demoTemplate
    ⟨1, expectedOps 0 demoTemplate demoStudent, "meta-a", 1000⟩ rfl rfl
  norm_num [demoStudent, demoTemplate] at h
  exact h

/-- C9: rendering the same request twice against the same template
(while the serializer's byte-level metadata and length may differ
between the runs) yields outputs with the same declared page count, and
both outputs embed the same QR payload — the request's certificate id. -/
theorem repeat_render_same_payload (env1 env2 : RenderEnv)
    (s : StudentRecord) (b1 b2 : PDFBytes)
    (ht : env1.template = env2.template)
    (h1 : generateCertificate env1 s = Except.ok b1)
    (h2 : generateCertificate env2 s = Except.ok b2) :
    b1.pageCount = b2.pageCount ∧
    (qrImages b1).map decodeQR = [s.certificate_id] ∧
    (qrImages b2).map decodeQR = [s.certificate_id] := by
  obtain ⟨t1, ht1, -, -, -, -, -, rfl⟩ := generateCertificate_ok_elim env1 s b1 h1
  obtain ⟨t2, ht2, -, -, -, -, -, rfl⟩ := generateCertificate_ok_elim env2 s b2 h2
  rw [ht, ht2] at ht1
  cases ht1
  exact ⟨rfl, by simp [qrImages, expectedOps, decodeQR],
    by simp [qrImages, expectedOps, decodeQR]⟩

/-- Witness for C9: two runs differing only in serializer metadata and
byte length agree on page count and QR payload. -/
theorem repeat_render_same_payload_witness :
    demoEnv.template = demoEnv2.template ∧
    generateCertificate demoEnv demoStudent =
      Except.ok ⟨1, expectedOps 0 demoTemplate demoStudent, "meta-a", 1000⟩ ∧
    generateCertificate demoEnv2 demoStudent =
      Except.ok ⟨1, expectedOps 0 demoTemplate demoStudent, "meta-b", 1003⟩ ∧
    (PDFBytes.mk 1 (expectedOps 0 demoTemplate demoStudent) "meta-a" 1000).pageCount =
      (PDFBytes.mk 1 (expectedOps 0 demoTemplate demoStudent) "meta-b" 1003).pageCount ∧
    (qrImages ⟨1, expectedOps 0 demoTemplate demoStudent, "meta-a", 1000⟩).map decodeQR =
      ["CERT1234"] :=
  ⟨rfl, rfl, rfl,
    (repeat_render_same_payload demoEnv demoEnv2 demoStudent
      ⟨1, expectedOps 0 demoTemplate demoStudent, "meta-a", 1000⟩
      ⟨1, expectedOps 0 demoTemplate demoStudent, "meta-b", 1003⟩ rfl rfl rfl).1,
    (repeat_render_same_payload demoEnv demoEnv2 demoStudent
      ⟨1, expectedOps 0 demoTemplate demoStudent, "meta-a", 1000⟩
      ⟨1, expectedOps 0 demoTemplate demoStudent, "meta-b", 1003⟩ rfl rfl rfl).2.1⟩

/-- The keys the save operation wrote under. -/
def writeKeys (o : SaveOutcome) : List String :=
  o.writes.map DbWrite.key

/-- The decoded QR payloads of each persisted document. -/
def writeQRPayloads (o : SaveOutcome) : List (List String) :=
  o.writes.map fun w => (qrImages w.value).map decodeQR

/-- The `certificateId` metadata of the returned result, when any. -/
def resultCertId (o : SaveOutcome) : Option String :=
  o.result.toOption.map SaveResult.certificateId

/-- C1 counterexample: a successful `generateAndSaveCertificate` run for
the student row with `student_id = "42"` and `certificate_id =
"CERT1234"` encodes `"CERT1234"` into the QR image and returns it as
metadata, but persists the bytes under the key `"42"` — the update is
keyed by the `studentId` argument, not by the certificate identifier, so
the three strings are not all equal. -/
theorem saveKey_ne_certificateId :
    resultCertId (generateAndSaveCertificate demoEnv true [demoStudent] "42") =
      some "CERT1234" ∧
    writeQRPayloads (generateAndSaveCertificate demoEnv true [demoStudent] "42") =
      [["CERT1234"]] ∧
    writeKeys (generateAndSaveCertificate demoEnv true [demoStudent] "42") =
      ["42"] ∧
    "42" ≠ "CERT1234" := by
  refine ⟨by rfl, by rfl, by rfl, by decide⟩

/-- C1 amended: in every successful `generateAndSaveCertificate` run,
the identifier encoded into the QR image and the `certificateId`
returned as metadata are exactly the same string — the fetched student
row's `certificate_id` — and the single persisted write stores the
rendered bytes into the row selected by the `studentId` argument (the
row the identifier was read from), not under the certificate identifier
itself. -/
theorem generateAndSave_id_consistency (env : RenderEnv) (updateOk : Bool)
    (db : List StudentRecord) (sid : String) (r : SaveResult)
    (h : (generateAndSaveCertificate env updateOk db sid).result = Except.ok r) :
    ∃ student b, findStudent db sid = some student ∧
      r.certificateId = student.certificate_id ∧
      (generateAndSaveCertificate env updateOk db sid).writes = [⟨sid, b⟩] ∧
      (qrImages b).map decodeQR = [r.certificateId] := by
  unfold generateAndSaveCertificate at *
  split at h
  · exact absurd h (by simp)
  · rename_i student hs
    rw [hs]
    split at h
    · exact absurd h (by simp)
    · split at h
      · exact absurd h (by simp)
      · rename_i hmiss b hb
        split at h
        · exact absurd h (by simp)
        · simp only [Except.ok.injEq] at h
          subst h
          refine ⟨student, b, rfl, rfl, ?_, qr_roundtrip env student b hb⟩
          simp_all

/-- Witness for the amended C1 at the demo fixtures. -/
theorem generateAndSave_id_consistency_witness :
    (generateAndSaveCertificate demoEnv true [demoStudent] "42").result =
      Except.ok ⟨true, "Certificate generated and saved successfully",
        "John Doe", "CERT1234", 1000⟩ ∧
    (∃ student b, findStudent [demoStudent] "42" = some student ∧
      SaveResult.certificateId ⟨true, "Certificate generated and saved successfully",
        "John Doe", "CERT1234", 1000⟩ = student.certificate_id ∧
      (generateAndSaveCertificate demoEnv true [demoStudent] "42").writes =
        [⟨"42", b⟩] ∧
      (qrImages b).map decodeQR = ["CERT1234"]) :=
  ⟨by rfl, generateAndSave_id_consistency demoEnv true [demoStudent] "42"
    ⟨true, "Certificate generated and saved successfully", "John Doe",
      "CERT1234", 1000⟩ (by rfl)⟩

/-- C4: when the fetched student row lacks any required field (absent,
null or empty all being falsy), `generateAndSaveCertificate` fails with
the missing-fields error before the PDF generation step: whatever the
render environment and database write behavior, no render is attempted,
no bytes are produced, and nothing is written. -/
theorem missing_fields_no_render (env : RenderEnv) (updateOk : Bool)
    (db : List StudentRecord) (sid : String) (student : StudentRecord)
    (hs : findStudent db sid = some student)
    (hm : missingFields student ≠ []) :
    (generateAndSaveCertificate env updateOk db sid).result =
      Except.error ("Missing required fields: " ++
        String.intercalate ", " (missingFields student)) ∧
    (generateAndSaveCertificate env updateOk db sid).rendered = false ∧
    (generateAndSaveCertificate env updateOk db sid).writes = [] := by
  unfold generateAndSaveCertificate
  rw [hs]
  simp [hm]

/-- Witness for C4: a row with an empty `course_name` is rejected with
the missing-fields error and no render. -/
theorem missing_fields_no_render_witness :
    findStudent [⟨"7", "Jane Roe", "", "AddWise Tech Innovations",
        "2025-01-15", "2025-04-15", "CERT5678"⟩] "7" =
      some ⟨"7", "Jane Roe", "", "AddWise Tech Innovations",
        "2025-01-15", "2025-04-15", "CERT5678"⟩ ∧
    missingFields ⟨"7", "Jane Roe", "", "AddWise Tech Innovations",
        "2025-01-15", "2025-04-15", "CERT5678"⟩ ≠ [] ∧
    (generateAndSaveCertificate demoEnv true
        [⟨"7", "Jane Roe", "", "AddWise Tech Innovations",
          "2025-01-15", "2025-04-15", "CERT5678"⟩] "7").result =
      Except.error "Missing required fields: course_name" ∧
    (generateAndSaveCertificate demoEnv true
        [⟨"7", "Jane Roe", "", "AddWise Tech Innovations",
          "2025-01-15", "2025-04-15", "CERT5678"⟩] "7").rendered = false ∧
    (generateAndSaveCertificate demoEnv true
        [⟨"7", "Jane Roe", "", "AddWise Tech Innovations",
          "2025-01-15", "2025-04-15", "CERT5678"⟩] "7").writes = [] := by
  have h := missing_fields_no_render demoEnv true
    [⟨"7", "Jane Roe", "", "AddWise Tech Innovations",
      "2025-01-15", "2025-04-15", "CERT5678"⟩] "7"
    ⟨"7", "Jane Roe", "", "AddWise Tech Innovations",
      "2025-01-15", "2025-04-15", "CERT5678"⟩ (by rfl) (by decide)
  exact ⟨by rfl, by decide, by simpa using h.1, h.2.1, h.2.2⟩

/-- C5 counterexample: with the per-size constant 12 the claim itself
names, the visual center (start plus estimated width over two) of a
20-character name on a 600-unit-wide page sits at 180, a full 120 units
(a fifth of the page width) left of the 300-unit midpoint, while a
4-character name's center sits at 276 — the two centers are 96 units
apart and the longer one is far outside any small tolerance of the
midpoint. -/
theorem centering_counterexample :
    visualCenter 600 "John" 12 = 276 ∧
    visualCenter 600 "AlexanderChristopher" 12 = 180 ∧
    ¬|visualCenter 600 "AlexanderChristopher" 12 - 600 / 2| ≤ 600 / 10 := by
  have h4 : "John".length = 4 := rfl
  have h20 : "AlexanderChristopher".length = 20 := rfl
  refine ⟨?_, ?_, ?_⟩
  · simp only [visualCenter, textStartX, estimatedWidth, h4]
    norm_num
  · simp only [visualCenter, textStartX, estimatedWidth, h20]
    norm_num
  · simp only [visualCenter, textStartX, estimatedWidth, h20]
    rw [abs_le]
    norm_num

/-- C5 amended: the name line's computed start position puts the
*estimated right edge* of the name — not its center — at the page's
horizontal midpoint: start plus the full estimated width equals
width / 2 exactly, so the visual center (start plus estimated width
over two) sits at width / 2 minus 6 times the name length, drifting
left of the midpoint linearly in the name's length instead of staying
within a fixed small tolerance of it. -/
theorem centering_amended (env : RenderEnv) (s : StudentRecord)
    (t : Template) (b : PDFBytes) (ht : env.template = some t)
    (h : generateCertificate env s = Except.ok b) :
    b.ops.head? = some (DrawOp.text s.preferred_name
      (textStartX t.width s.preferred_name 12) (t.height / 2 + 50) 24 true) ∧
    textStartX t.width s.preferred_name 12 +
      estimatedWidth s.preferred_name 12 = t.width / 2 ∧
    visualCenter t.width s.preferred_name 12 =
      t.width / 2 - 6 * s.preferred_name.length := by
  obtain ⟨t2, ht2, -, -, -, -, -, rfl⟩ := generateCertificate_ok_elim env s b h
  rw [ht] at ht2
  cases ht2
  refine ⟨rfl, ?_, ?_⟩
  · unfold textStartX estimatedWidth
    ring
  · unfold visualCenter textStartX estimatedWidth
    ring

/-- Witness for the amended C5 at the demo fixtures. -/
theorem centering_amended_witness :
    demoEnv.template = some demoTemplate ∧
    (PDFBytes.mk 1 (expectedOps 0 demoTemplate demoStudent) "meta-a" 1000).ops.head? =
      some (DrawOp.text "John Doe"
        (textStartX 600 "John Doe" 12) (250 : ℚ) 24 true) ∧
    textStartX 600 "John Doe" 12 + estimatedWidth "John Doe" 12 = 300 ∧
    visualCenter 600 "John Doe" 12 = 252 := by
  have h := centering_amended demoEnv demoStudent demoTemplate
    ⟨1, expectedOps 0 demoTemplate demoStudent, "meta-a", 1000⟩ rfl rfl
  refine ⟨rfl, ?_, ?_, ?_⟩
  · have h1 := h.1
    norm_num [demoStudent, demoTemplate] at h1
    exact h1
  · have h2 := h.2.1
    norm_num [demoStudent, demoTemplate] at h2
    exact h2
  · have h3 := h.2.2
    have hl : "John Doe".length = 8 := rfl
    simp only [demoStudent, demoTemplate] at h3
    rw [hl] at h3
    norm_num at h3
    exact h3

/-- C2: `formatDate` maps `"2025-01-15"` to `"15 January 2025"` and
`"2025-12-01"` to `"1 December 2025"` in a host whose UTC offset is
zero — but not in every execution environment: the string is parsed at
UTC midnight while the day is read back in local time, so a host at
UTC-05:00 (offset -300 minutes, e.g. US Eastern) renders `"2025-01-15"`
as `"14 January 2025"`, one day early. -/
theorem formatDate_timezone_dependence :
    formatDate 0 "2025-01-15" = "15 January 2025" ∧
    formatDate 0 "2025-12-01" = "1 December 2025" ∧
    formatDate (-300) "2025-01-15" = "14 January 2025" ∧
    "14 January 2025" ≠ "15 January 2025" :=
  ⟨by decide, by decide, by decide, by decide⟩

/-- C10: `formatDate` is total — on any input string that does not
parse as a calendar date the getters yield `NaN`, the month lookup
falls outside the twelve-entry table yielding `undefined`, and the
function returns the string `"NaN undefined NaN"` instead of failing,
in every time zone. -/
theorem formatDate_total_on_malformed (tz : Int) (s : String)
    (h : parseYMD s = none) : formatDate tz s = "NaN undefined NaN" := by
  unfold formatDate jsLocalYMD
  rw [h]
  rfl

/-- Witness for C10: `"2025-02-30"` is not a calendar date (February
has no 30th), yet `formatDate` quietly produces `"NaN undefined NaN"`. -/
theorem formatDate_total_on_malformed_witness :
    parseYMD "2025-02-30" = none ∧
    formatDate 0 "2025-02-30" = "NaN undefined NaN" :=
  ⟨by decide, formatDate_total_on_malformed 0 "2025-02-30" (by decide)⟩

/-- The certificate ids carried by the handler's writes. -/
def updateCertIds (o : RequestOutcome) : List String :=
  o.writes.map StudentUpdate.certificate_id

/-- C8: when the student row already stores a non-empty
`certificate_id`, every path of the request handler either performs no
write or writes back exactly that stored identifier — the freshly
generated id is never used to replace it. -/
theorem certificate_id_immutable (tz : Int) (req : CertRequest)
    (courseLookup companyLookup : Option Nat) (e : ExistingStudent)
    (freshId : String) (updateError updateFound : Bool)
    (hc : e.certificate_id ≠ "") :
    updateCertIds (certificateRequestHandler tz req courseLookup companyLookup
      (some e) freshId updateError updateFound) = [] ∨
    updateCertIds (certificateRequestHandler tz req courseLookup companyLookup
      (some e) freshId updateError updateFound) = [e.certificate_id] := by
  unfold certificateRequestHandler updateCertIds
  split
  · left; rfl
  · split
    · left; rfl
    · split
      · left; rfl
      · split
        · left; rfl
        · split
          · left; rfl
          · split
            · rename_i e2 heq
              injection heq with he
              subst he
              split
              · split
                · left; rfl
                · split
                  · left; rfl
                  · right; rfl
              · simp_all
            · rename_i heq
              exact absurd heq (by simp)

/-- Witness for C8: a row holding `"OLDCERT1"` keeps it even though the
generator offered `"NEWCERT9"`. -/
theorem certificate_id_immutable_witness :
    ("OLDCERT1" : String) ≠ "" ∧
    (updateCertIds (certificateRequestHandler 0
        ⟨"8184930950", "2025-01-15", 3, "Full Stack",
         "AddWise Tech Innovations", " Test "⟩
        (some 7) (some 9) (some ⟨"OLDCERT1", "", ""⟩)
        "NEWCERT9" false true) = [] ∨
      updateCertIds (certificateRequestHandler 0
        ⟨"8184930950", "2025-01-15", 3, "Full Stack",
         "AddWise Tech Innovations", " Test "⟩
        (some 7) (some 9) (some ⟨"OLDCERT1", "", ""⟩)
        "NEWCERT9" false true) = ["OLDCERT1"]) :=
  ⟨by decide, certificate_id_immutable 0
    ⟨"8184930950", "2025-01-15", 3, "Full Stack",
     "AddWise Tech Innovations", " Test "⟩
    (some 7) (some 9) ⟨"OLDCERT1", "", ""⟩ "NEWCERT9" false true (by decide)⟩

end CertBackend
